import Mathlib

/-!
Shallow embedding of the cryptfs-cli repository (Rust) for checking its
natural-language specification.

The repository orchestrates external binaries (gpg, gocryptfs, cppcryptfs,
fusermount) to create, mount and unmount GPG-protected encrypted filesystem
repositories.  The embedding models:

- strings and Rust string helpers (trim, trim_end, UTF-8 decoding, lossy
  UTF-8 decoding) over explicit character and byte lists;
- the process runner (src/process.rs) with external command outcomes
  supplied by an oracle;
- the filesystem as a function from component paths to optional
  (kind, mode) entries, with the directory/permission operations used by
  the code;
- the repository operations (src/ops/mod.rs) and the two platform
  backends (src/ops/linux.rs, src/ops/windows.rs).

Effects are made explicit: each operation returns its result, the final
filesystem and the list of external commands it attempted.
-/

namespace CryptfsCli

/-- The compile-time platform selector, modelling the cfg(target_os)
conditional compilation in the source. -/
inductive Platform
  | windows
  | unix
deriving DecidableEq, Repr

instance {ε α : Type} [DecidableEq ε] [DecidableEq α] : DecidableEq (Except ε α) := fun x y =>
  match x, y with
  | .error a, .error b =>
    if h : a = b then .isTrue (congrArg Except.error h)
    else .isFalse (fun he => h (Except.error.inj he))
  | .ok a, .ok b =>
    if h : a = b then .isTrue (congrArg Except.ok h)
    else .isFalse (fun he => h (Except.ok.inj he))
  | .error _, .ok _ => .isFalse (fun he => Except.noConfusion he)
  | .ok _, .error _ => .isFalse (fun he => Except.noConfusion he)

/-- Rust Vec::join for strings: concatenate with a separator between
consecutive elements. -/
def joinWith (sep : String) : List String → String
  | [] => ""
  | [m] => m
  | m :: ms => m ++ sep ++ joinWith sep ms

/-- Rust char::is_whitespace: the Unicode White_Space code points. -/
def rustIsWhitespace (c : Char) : Bool :=
  c.toNat = 0x09 || c.toNat = 0x0A || c.toNat = 0x0B || c.toNat = 0x0C ||
  c.toNat = 0x0D || c.toNat = 0x20 || c.toNat = 0x85 || c.toNat = 0xA0 ||
  c.toNat = 0x1680 || (0x2000 ≤ c.toNat && c.toNat ≤ 0x200A) ||
  c.toNat = 0x2028 || c.toNat = 0x2029 || c.toNat = 0x202F ||
  c.toNat = 0x205F || c.toNat = 0x3000

/-- Rust str::trim_end: remove trailing whitespace. -/
def rustTrimEnd (s : String) : String :=
  String.mk ((s.data.reverse.dropWhile rustIsWhitespace).reverse)

/-- Rust str::trim: remove leading and trailing whitespace. -/
def rustTrim (s : String) : String :=
  String.mk (((s.data.dropWhile rustIsWhitespace).reverse.dropWhile rustIsWhitespace).reverse)

/-- The string sub occurs contiguously inside hay. -/
def sContains (hay sub : String) : Prop := sub.data <:+: hay.data

instance (hay sub : String) : Decidable (sContains hay sub) :=
  List.decidableInfix sub.data hay.data

/-- A UTF-8 continuation byte. -/
def utf8Cont (b : Nat) : Bool := 0x80 ≤ b && b ≤ 0xBF

/-- Strict UTF-8 decoding of a byte list into Unicode code points,
following the accepting ranges of Rust String::from_utf8; returns none
exactly on invalid input. -/
def utf8DecodeAll : List Nat → Option (List Nat)
  | [] => some []
  | b :: bs =>
    if b ≤ 0x7F then (utf8DecodeAll bs).map (fun l => b :: l)
    else if 0xC2 ≤ b && b ≤ 0xDF then
      match bs with
      | b1 :: bs1 =>
        if utf8Cont b1 then
          (utf8DecodeAll bs1).map (fun l => ((b - 0xC0) * 0x40 + (b1 - 0x80)) :: l)
        else none
      | [] => none
    else if 0xE0 ≤ b && b ≤ 0xEF then
      match bs with
      | b1 :: b2 :: bs2 =>
        let okB1 :=
          if b = 0xE0 then 0xA0 ≤ b1 && b1 ≤ 0xBF
          else if b = 0xED then 0x80 ≤ b1 && b1 ≤ 0x9F
          else utf8Cont b1
        if okB1 && utf8Cont b2 then
          (utf8DecodeAll bs2).map
            (fun l => ((b - 0xE0) * 0x1000 + (b1 - 0x80) * 0x40 + (b2 - 0x80)) :: l)
        else none
      | _ => none
    else if 0xF0 ≤ b && b ≤ 0xF4 then
      match bs with
      | b1 :: b2 :: b3 :: bs3 =>
        let okB1 :=
          if b = 0xF0 then 0x90 ≤ b1 && b1 ≤ 0xBF
          else if b = 0xF4 then 0x80 ≤ b1 && b1 ≤ 0x8F
          else utf8Cont b1
        if okB1 && utf8Cont b2 && utf8Cont b3 then
          (utf8DecodeAll bs3).map
            (fun l =>
              ((b - 0xF0) * 0x40000 + (b1 - 0x80) * 0x1000 +
                (b2 - 0x80) * 0x40 + (b3 - 0x80)) :: l)
        else none
      | _ => none
    else none

/-- Lossy UTF-8 decoding, modelling String::from_utf8_lossy: valid
sequences decode as usual, invalid bytes are replaced by U+FFFD.
(Replacement granularity on invalid sequences is modelled byte by byte;
all claims evaluate it on valid input only, where it agrees with the
strict decoder.) -/
def utf8LossyAll : List Nat → List Nat
  | [] => []
  | b :: bs =>
    if b ≤ 0x7F then b :: utf8LossyAll bs
    else if 0xC2 ≤ b && b ≤ 0xDF then
      match bs with
      | b1 :: bs1 =>
        if utf8Cont b1 then ((b - 0xC0) * 0x40 + (b1 - 0x80)) :: utf8LossyAll bs1
        else 0xFFFD :: utf8LossyAll (b1 :: bs1)
      | [] => [0xFFFD]
    else if 0xE0 ≤ b && b ≤ 0xEF then
      match bs with
      | b1 :: b2 :: bs2 =>
        let okB1 :=
          if b = 0xE0 then 0xA0 ≤ b1 && b1 ≤ 0xBF
          else if b = 0xED then 0x80 ≤ b1 && b1 ≤ 0x9F
          else utf8Cont b1
        if okB1 && utf8Cont b2 then
          ((b - 0xE0) * 0x1000 + (b1 - 0x80) * 0x40 + (b2 - 0x80)) :: utf8LossyAll bs2
        else 0xFFFD :: utf8LossyAll (b1 :: b2 :: bs2)
      | [b1] => 0xFFFD :: utf8LossyAll [b1]
      | [] => [0xFFFD]
    else if 0xF0 ≤ b && b ≤ 0xF4 then
      match bs with
      | b1 :: b2 :: b3 :: bs3 =>
        let okB1 :=
          if b = 0xF0 then 0x90 ≤ b1 && b1 ≤ 0xBF
          else if b = 0xF4 then 0x80 ≤ b1 && b1 ≤ 0x8F
          else utf8Cont b1
        if okB1 && utf8Cont b2 && utf8Cont b3 then
          ((b - 0xF0) * 0x40000 + (b1 - 0x80) * 0x1000 +
            (b2 - 0x80) * 0x40 + (b3 - 0x80)) :: utf8LossyAll bs3
        else 0xFFFD :: utf8LossyAll (b1 :: b2 :: b3 :: bs3)
      | [b1, b2] => 0xFFFD :: utf8LossyAll [b1, b2]
      | [b1] => 0xFFFD :: utf8LossyAll [b1]
      | [] => [0xFFFD]
    else 0xFFFD :: utf8LossyAll bs

/-- Build a string from a list of Unicode code points. -/
def cpString (l : List Nat) : String := String.mk (l.map Char.ofNat)

/-- Rust String::from_utf8 on a byte list. -/
def stringFromUtf8 (bs : List Nat) : Option String :=
  (utf8DecodeAll bs).map cpString

/-- Rust String::from_utf8_lossy on a byte list. -/
def lossyString (bs : List Nat) : String := cpString (utf8LossyAll bs)

/-- An external command descriptor: program name plus argument list
(std::process::Command as built by this tool; all arguments are valid
UTF-8 strings). -/
structure Cmd where
  program : String
  args : List String
deriving DecidableEq, Repr

/-- The exit status of a completed external command: success is
status.success(), display is the Display formatting of the status. -/
structure ExitStatus where
  success : Bool
  display : String
deriving DecidableEq, Repr

/-- The captured outcome of a completed external command
(std::process::Output).  Streams are raw byte lists. -/
structure Output where
  status : ExitStatus
  stdout : List Nat
  stderr : List Nat
deriving DecidableEq, Repr

/-- What the operating system did with one attempted external command:
the spawn failed (program not launchable), or the command ran to
completion with the given output.  Supplied by an oracle, since the
external binaries are outside the repository. -/
inductive CmdResult
  | spawnFailed (msg : String)
  | completed (out : Output)
deriving DecidableEq, Repr

/-- The attempted command did not end in a zero exit status: either it
could not be launched or it completed unsuccessfully. -/
def CmdResult.failed : CmdResult → Bool
  | .spawnFailed _ => true
  | .completed out => !out.status.success

/-- Transcribes process::format_command: program followed by the
space-joined arguments, the program alone when the joined argument
string is empty. -/
def format_command (c : Cmd) : String :=
  let args := joinWith " " c.args
  if args = "" then c.program else c.program ++ " " ++ args

/-- Decides whether an Except value is an error. -/
def isErrorResult {α : Type} : Except String α → Bool
  | .error _ => true
  | .ok _ => false

/-- Transcribes process::run_with_output: given the command and the
outcome of attempting it, return the captured output on exit status
zero; otherwise fail with a message carrying the formatted command line
and the non-empty trimmed streams (stderr first, then stdout), or the
bare exit status when both are empty.  A spawn failure becomes the
context error of the .output() call. -/
def run_with_output (cmd : Cmd) (res : CmdResult) : Except String Output :=
  let desc := format_command cmd
  match res with
  | .spawnFailed msg => .error ("failed to run `" ++ desc ++ "`: " ++ msg)
  | .completed output =>
    if output.status.success then .ok output
    else
      let stderr := lossyString output.stderr
      let stdout := lossyString output.stdout
      let messages :=
        (if rustTrim stderr ≠ "" then ["stderr: " ++ rustTrim stderr] else []) ++
        (if rustTrim stdout ≠ "" then ["stdout: " ++ rustTrim stdout] else [])
      let messages :=
        if messages = [] then ["exit status: " ++ output.status.display] else messages
      .error ("`" ++ desc ++ "` failed: " ++ joinWith "\n" messages)

/-- Path separator character of each platform. -/
def pathSep : Platform → Char
  | .windows => '\\'
  | .unix => '/'

/-- Rust Path::is_absolute on Windows: a drive prefix followed by a
separator, or a UNC/verbatim path starting with two backslashes. -/
def winIsAbsolute (s : String) : Bool :=
  match s.data with
  | '\\' :: '\\' :: _ => true
  | c :: d :: sep :: _ => c.isAlpha && d = ':' && (sep = '\\' || sep = '/')
  | _ => false

/-- Rust Path::is_absolute for the modelled platform. -/
def isAbsolutePath : Platform → String → Bool
  | .unix, s =>
    match s.data with
    | '/' :: _ => true
    | _ => false
  | .windows, s => winIsAbsolute s

/-- A string beginning with a Windows drive specification (letter then
colon); on Windows, Path::push and hence Path::join replaces the base
path entirely when the pushed path has such a prefix. -/
def hasDriveSpec (s : String) : Bool :=
  match s.data with
  | c :: d :: _ => c.isAlpha && d = ':'
  | _ => false

/-- The string ends with the given character. -/
def strEndsWithChar (s : String) (c : Char) : Bool :=
  match s.data.reverse with
  | d :: _ => d = c
  | [] => false

/-- Rust PathBuf::join modelled on strings: an absolute (or, on
Windows, drive-prefixed) child replaces the base; otherwise the child
is appended behind a single separator. -/
def joinPath (plat : Platform) (base child : String) : String :=
  if isAbsolutePath plat child || (plat = Platform.windows && hasDriveSpec child) then child
  else if strEndsWithChar base (pathSep plat) then base ++ child
  else base ++ String.mk [pathSep plat] ++ child

/-- Transcribes ops::is_windows_drive_letter on the Windows build: the
input is exactly two bytes, an ASCII letter followed by a colon.
(Checking the two characters is equivalent to the byte-level check in
the source, since a non-ASCII first character is multi-byte in UTF-8
and also fails is_ascii_alphabetic.) -/
def is_windows_drive_letter_check (s : String) : Bool :=
  match s.data with
  | [c, d] => c.isAlpha && d = ':'
  | _ => false

/-- Transcribes the two cfg variants of ops::is_windows_drive_letter:
the real check on Windows, constantly false elsewhere. -/
def is_windows_drive_letter : Platform → String → Bool
  | .windows, s => is_windows_drive_letter_check s
  | .unix, _ => false

/-- Transcribes ops::normalize_mount_point.  The current working
directory is passed in (the source obtains it from env::current_dir;
its possible I/O failure is not modelled).  The function is pure and
performs no existence checks. -/
def normalize_mount_point (plat : Platform) (cwd : String) (input : String) : String :=
  let candidate := input
  if plat = Platform.windows then
    if is_windows_drive_letter plat input || isAbsolutePath plat candidate then candidate
    else joinPath plat cwd candidate
  else
    if isAbsolutePath plat candidate then candidate
    else joinPath plat cwd candidate

/-- Kind of a filesystem entry. -/
inductive EntryKind
  | file
  | dir
deriving DecidableEq, Repr

/-- The filesystem, modelled as a partial map from absolute component
paths to (kind, unix permission mode) entries. -/
def Fs : Type := List String → Option (EntryKind × Nat)

/-- The empty filesystem. -/
def fsEmpty : Fs := fun _ => none

/-- Rust Path::exists. -/
def Fs.existsPath (fs : Fs) (p : List String) : Bool := (fs p).isSome

/-- Rust Path::is_file. -/
def Fs.isFile (fs : Fs) (p : List String) : Bool :=
  match fs p with
  | some (EntryKind.file, _) => true
  | _ => false

/-- Rust Path::is_dir. -/
def Fs.isDir (fs : Fs) (p : List String) : Bool :=
  match fs p with
  | some (EntryKind.dir, _) => true
  | _ => false

/-- All non-empty prefixes of a component path, shortest first. -/
def pathPrefixes : List String → List (List String)
  | [] => []
  | c :: rest => [c] :: (pathPrefixes rest).map (fun q => c :: q)

/-- Rust fs::create_dir_all: create the path and all missing ancestors
as directories (default creation mode modelled as 0o755); fails when a
file stands in the way. -/
def Fs.mkdirAll (fs : Fs) (p : List String) : Except String Fs :=
  if (pathPrefixes p).any (fun q => Fs.isFile fs q) then
    .error "Not a directory"
  else
    .ok (fun q => if q ∈ pathPrefixes p ∧ fs q = none then some (EntryKind.dir, 0o755) else fs q)

/-- Rust fs::set_permissions: change the mode of an existing entry. -/
def Fs.setMode (fs : Fs) (p : List String) (m : Nat) : Except String Fs :=
  match fs p with
  | none => .error "No such file or directory"
  | some (k, _) => .ok (fun q => if q = p then some (k, m) else fs q)

/-- Creation (or overwrite) of a plain file with the given mode. -/
def Fs.addFile (fs : Fs) (p : List String) (m : Nat) : Fs :=
  fun q => if q = p then some (EntryKind.file, m) else fs q

/-- Rust fs::rename: move the entry at src to dst. -/
def Fs.rename (fs : Fs) (src dst : List String) : Except String Fs :=
  match fs src with
  | none => .error "No such file or directory"
  | some entry =>
    .ok (fun q => if q = dst then some entry else if q = src then none else fs q)

/-- A path argument as handed to the operations: an absolute or
relative sequence of components (std::path::Path). -/
structure RPath where
  absolute : Bool
  comps : List String
deriving DecidableEq, Repr

/-- Transcribes ops::absolute_path: an absolute path is kept, a
relative one is joined onto the current working directory (given as
absolute components; the possible failure of env::current_dir is not
modelled). -/
def absolute_path (cwd : List String) (p : RPath) : List String :=
  if p.absolute then p.comps else cwd ++ p.comps

/-- Display of an absolute component path in POSIX notation. -/
def showPath (p : List String) : String := "/" ++ joinWith "/" p

/-- Display of a component path in Windows notation. -/
def showWinPath (p : List String) : String := joinWith "\\" p

/-- Transcribes the unix cfg variant of ops::set_secret_mode: chmod
0600. -/
def set_secret_mode (fs : Fs) (p : List String) : Except String Fs :=
  match Fs.setMode fs p 0o600 with
  | .error e => .error ("failed to set permissions on '" ++ showPath p ++ "': " ++ e)
  | .ok fs1 => .ok fs1

/-- Transcribes the unix cfg variant of ops::set_dir_mode: chmod
0700. -/
def set_dir_mode (fs : Fs) (p : List String) : Except String Fs :=
  match Fs.setMode fs p 0o700 with
  | .error e => .error ("failed to set directory permissions on '" ++ showPath p ++ "': " ++ e)
  | .ok fs1 => .ok fs1

/-- Result of one repository operation: the Rust Result, the filesystem
afterwards, and the external commands attempted, in order. -/
structure OpOut (α : Type) where
  result : Except String α
  fs : Fs
  trace : List Cmd

/-- Outcome of the two-stage gpg pipeline in
ops::generate_encrypted_passphrase, supplied by the environment: did
each of the two spawns succeed, and with which exit statuses and
captured encryptor stderr did the children finish. -/
structure PipeEnv where
  randomSpawnOk : Bool
  encryptSpawnOk : Bool
  randomStatus : ExitStatus
  encryptStatus : ExitStatus
  encryptStderr : List Nat
deriving DecidableEq, Repr

/-- The gpg --gen-random command of the pipeline. -/
def randomCmd : Cmd := ⟨"gpg", ["--gen-random", "--armor", "0", "64"]⟩

/-- The gpg --encrypt command of the pipeline. -/
def encryptCmd (user : String) (passphraseFile : List String) : Cmd :=
  ⟨"gpg", ["--encrypt", "--sign", "-r", user, "-o", showPath passphraseFile]⟩

/-- Transcribes ops::generate_encrypted_passphrase.  The random
generator is spawned first, then the encryptor with its stdin connected
to the generator stdout; the encryptor is awaited (wait_with_output),
then the generator (wait); only then are the statuses checked, the
generator status first.  The ciphertext file written by gpg -o is
modelled as appearing on full success.  Wait failures are not
modelled. -/
def generate_encrypted_passphrase (pipe : PipeEnv) (user : String) (fs : Fs)
    (passphraseFile : List String) : OpOut Unit :=
  if ¬ pipe.randomSpawnOk then
    ⟨.error "failed to start gpg --gen-random", fs, []⟩
  else if ¬ pipe.encryptSpawnOk then
    ⟨.error "failed to start gpg --encrypt pipeline", fs, [randomCmd]⟩
  else if ¬ pipe.randomStatus.success then
    ⟨.error ("gpg --gen-random failed with status " ++ pipe.randomStatus.display),
      fs, [randomCmd, encryptCmd user passphraseFile]⟩
  else if ¬ pipe.encryptStatus.success then
    ⟨.error ("gpg failed to encrypt passphrase: " ++ rustTrim (lossyString pipe.encryptStderr)),
      fs, [randomCmd, encryptCmd user passphraseFile]⟩
  else
    ⟨.ok (), Fs.addFile fs passphraseFile 0o644, [randomCmd, encryptCmd user passphraseFile]⟩

/-- The gocryptfs -extpass hook string built by the POSIX backend. -/
def extpassArg (passphraseFile : List String) : String :=
  "gpg --decrypt \"" ++ showPath passphraseFile ++ "\""

/-- The gocryptfs -init command of linux::init_repository. -/
def linux_init_cmd (repoDir objectsDir passphraseFile : List String) : Cmd :=
  ⟨"gocryptfs",
    ["-init", "--deterministic-names", "--config", showPath (repoDir ++ ["gocryptfs.conf"]),
      "-extpass", extpassArg passphraseFile, showPath objectsDir]⟩

/-- Transcribes linux::init_repository: run gocryptfs -init through the
process runner, then chmod 0600 the engine configuration file.  The
configuration file written by the external engine is modelled as
appearing on command success. -/
def linux_init_repository (oracle : Cmd → CmdResult) (fs : Fs)
    (repoDir objectsDir passphraseFile : List String) : OpOut Unit :=
  let configPath := repoDir ++ ["gocryptfs.conf"]
  let cmd := linux_init_cmd repoDir objectsDir passphraseFile
  match run_with_output cmd (oracle cmd) with
  | .error e => ⟨.error ("gocryptfs init failed: " ++ e), fs, [cmd]⟩
  | .ok _ =>
    let fs1 := Fs.addFile fs configPath 0o644
    match set_secret_mode fs1 configPath with
    | .error e => ⟨.error e, fs1, [cmd]⟩
    | .ok fs2 => ⟨.ok (), fs2, [cmd]⟩

/-- Transcribes the layout phase of ops::create (the part before the
backend delegation): recipient validation, existence check, directory
creation with owner-only modes, passphrase pipeline, owner-only mode on
the passphrase file.  Returns the resolved repository directory. -/
def create_layout (cwd : List String) (pipe : PipeEnv) (fs : Fs) (user : String)
    (repo : RPath) : OpOut (List String) :=
  if rustTrim user = "" then
    ⟨.error "GPG user/email is required (-u/--user)", fs, []⟩
  else
    let repoDir := absolute_path cwd repo
    if Fs.existsPath fs repoDir then
      ⟨.error ("directory '" ++ showPath repoDir ++ "' already exists"), fs, []⟩
    else
      let objectsDir := repoDir ++ ["objects"]
      match Fs.mkdirAll fs objectsDir with
      | .error e =>
        ⟨.error ("failed to create repository directories under '" ++ showPath repoDir ++ "': " ++ e),
          fs, []⟩
      | .ok fs1 =>
        match set_dir_mode fs1 repoDir with
        | .error e => ⟨.error e, fs1, []⟩
        | .ok fs2 =>
          match set_dir_mode fs2 objectsDir with
          | .error e => ⟨.error e, fs2, []⟩
          | .ok fs3 =>
            let passphraseFile := repoDir ++ ["passphrase.gpg"]
            match generate_encrypted_passphrase pipe user fs3 passphraseFile with
            | ⟨.error e, fs4, tr⟩ => ⟨.error e, fs4, tr⟩
            | ⟨.ok _, fs4, tr⟩ =>
              match set_secret_mode fs4 passphraseFile with
              | .error e => ⟨.error e, fs4, tr⟩
              | .ok fs5 => ⟨.ok repoDir, fs5, tr⟩

/-- Transcribes ops::create on the non-Windows build: the layout phase
followed by delegation to linux::init_repository. -/
def create (cwd : List String) (pipe : PipeEnv) (oracle : Cmd → CmdResult) (fs : Fs)
    (user : String) (repo : RPath) : OpOut Unit :=
  match create_layout cwd pipe fs user repo with
  | ⟨.error e, fs1, tr⟩ => ⟨.error e, fs1, tr⟩
  | ⟨.ok repoDir, fs1, tr⟩ =>
    let r := linux_init_repository oracle fs1 repoDir (repoDir ++ ["objects"])
      (repoDir ++ ["passphrase.gpg"])
    ⟨r.result, r.fs, tr ++ r.trace⟩

/-- Transcribes ops::ensure_mount_point_exists on the non-Windows
build (the drive-letter skip is compiled out): nothing to do when the
mount point is already a directory, otherwise create it and chmod
0700.  On error the partially created directories are not tracked. -/
def ensure_mount_point_exists (fs : Fs) (mountPoint : List String) : Except String Fs :=
  if Fs.isDir fs mountPoint then .ok fs
  else
    match Fs.mkdirAll fs mountPoint with
    | .error e =>
      .error ("failed to create mount point '" ++ showPath mountPoint ++ "': " ++ e)
    | .ok fs1 =>
      match Fs.setMode fs1 mountPoint 0o700 with
      | .error e => .error ("unable to set mount point permissions to 700: " ++ e)
      | .ok fs2 => .ok fs2

/-- The gocryptfs mount command of linux::mount_repository. -/
def linux_mount_cmd (cipherDir passphraseFile mountPoint : List String)
    (options : Option String) (repoDir : List String) : Cmd :=
  ⟨"gocryptfs",
    ["--config", showPath (repoDir ++ ["gocryptfs.conf"]), "-extpass", extpassArg passphraseFile] ++
      (match options with
        | some opts => ["-o", opts]
        | none => []) ++
      [showPath cipherDir, showPath mountPoint]⟩

/-- Transcribes linux::mount_repository: one gocryptfs invocation
through the process runner; no filesystem changes by this tool (the
mount itself is an effect of the external engine). -/
def linux_mount_repository (oracle : Cmd → CmdResult) (fs : Fs)
    (cipherDir passphraseFile mountPoint : List String) (options : Option String)
    (repoDir : List String) : OpOut Unit :=
  let cmd := linux_mount_cmd cipherDir passphraseFile mountPoint options repoDir
  match run_with_output cmd (oracle cmd) with
  | .error e => ⟨.error ("gocryptfs mount failed: " ++ e), fs, [cmd]⟩
  | .ok _ => ⟨.ok (), fs, [cmd]⟩

/-- Transcribes ops::mount on the non-Windows build: resolve the
repository directory, verify the layout (passphrase.gpg is a file and
objects/ is a directory) and only then ensure the mount point exists
and delegate to the backend. -/
def mount (cwd : List String) (oracle : Cmd → CmdResult) (fs : Fs) (repo : RPath)
    (mountPoint : List String) (options : Option String) : OpOut Unit :=
  let repoDir := absolute_path cwd repo
  let passphraseFile := repoDir ++ ["passphrase.gpg"]
  let cipherDir := repoDir ++ ["objects"]
  if !Fs.isFile fs passphraseFile || !Fs.isDir fs cipherDir then
    ⟨.error ("repository layout is invalid under '" ++ showPath repoDir ++
        "': expected passphrase.gpg and objects/"), fs, []⟩
  else
    match ensure_mount_point_exists fs mountPoint with
    | .error e => ⟨.error e, fs, []⟩
    | .ok fs1 =>
      linux_mount_repository oracle fs1 cipherDir passphraseFile mountPoint options repoDir

/-- The external unmount command per platform: fusermount -u on POSIX,
cppcryptfs.exe --unmount= on Windows (linux::umount_repository and
windows::umount_repository). -/
def umount_cmd : Platform → String → Cmd
  | .unix, mountStr => ⟨"fusermount", ["-u", mountStr]⟩
  | .windows, mountStr => ⟨"cppcryptfs.exe", ["--unmount=" ++ mountStr]⟩

/-- The context string wrapped around an unmount failure per
platform. -/
def umount_context : Platform → String
  | .unix => "fusermount failed"
  | .windows => "cppcryptfs.exe unmount failed"

/-- Transcribes ops::umount together with the platform
umount_repository variants: a single external command through the
process runner.  The mount point is received as a string (the source
converts the path with to_str; a non-UTF-8 path is not representable in
this model).  Returns the Rust Result and the attempted commands. -/
def umount (plat : Platform) (oracle : Cmd → CmdResult) (mountStr : String) :
    Except String Unit × List Cmd :=
  let cmd := umount_cmd plat mountStr
  match run_with_output cmd (oracle cmd) with
  | .error e => (.error (umount_context plat ++ ": " ++ e), [cmd])
  | .ok _ => (.ok (), [cmd])

/-- The gpg --decrypt command used by the Windows backend. -/
def decryptCmd (passphraseFileStr : String) : Cmd := ⟨"gpg", ["--decrypt", passphraseFileStr]⟩

/-- Transcribes the Windows-only ops::decrypt_passphrase: run gpg
--decrypt through the process runner and require the captured stdout to
be valid UTF-8. -/
def decrypt_passphrase (oracle : Cmd → CmdResult) (passphraseFileStr : String) :
    Except String String :=
  match run_with_output (decryptCmd passphraseFileStr) (oracle (decryptCmd passphraseFileStr)) with
  | .error e => .error e
  | .ok output =>
    match stringFromUtf8 output.stdout with
    | none => .error "passphrase is not valid UTF-8"
    | some passphrase => .ok passphrase

/-- One attempted external command together with the data written to
its standard input, when any. -/
structure Invocation where
  cmd : Cmd
  stdinData : Option String
deriving DecidableEq, Repr

/-- Result of a Windows backend operation: the Rust Result, the
filesystem afterwards, and the attempted commands with their stdin
payloads. -/
structure WinOut (α : Type) where
  result : Except String α
  fs : Fs
  invocations : List Invocation

/-- Environment for the cppcryptfsctl.exe child spawned by
windows::init_repository: spawn success, stdin write success, exit
status and captured stderr. -/
structure WinInitEnv where
  spawnOk : Bool
  stdinWriteOk : Bool
  status : ExitStatus
  stderr : List Nat
deriving DecidableEq, Repr

/-- Rust Path::file_name().and_then(to_str).unwrap_or("cryptfs") as
used for the volume name: the last path component, with the source
fallback. -/
def volume_name (repoDir : List String) : String :=
  match repoDir.getLast? with
  | some n => n
  | none => "cryptfs"

/-- The cppcryptfsctl.exe init command of windows::init_repository. -/
def win_init_cmd (objectsDir : List String) (volumeName : String) : Cmd :=
  ⟨"cppcryptfsctl.exe",
    ["--init=" ++ showWinPath objectsDir, "--volumename=" ++ volumeName, "--deterministicnames"]⟩

/-- Transcribes windows::init_repository: decrypt the passphrase
eagerly, pipe its trailing-whitespace-trimmed form to the
cppcryptfsctl.exe child via stdin, check the exit status (stderr as
diagnostic), then relocate the engine-written configuration file from
objects/ into the repository directory and chmod it 0600.  The
configuration file written by the external engine is modelled as
appearing on command success. -/
def windows_init_repository (oracle : Cmd → CmdResult) (env : WinInitEnv) (fs : Fs)
    (repoDir objectsDir passphraseFile : List String) : WinOut Unit :=
  let decInv : Invocation := ⟨decryptCmd (showWinPath passphraseFile), none⟩
  match decrypt_passphrase oracle (showWinPath passphraseFile) with
  | .error e => ⟨.error e, fs, [decInv]⟩
  | .ok passphrase =>
    let volumeName := volume_name repoDir
    let cmd := win_init_cmd objectsDir volumeName
    if ¬ env.spawnOk then
      ⟨.error "failed to start cppcryptfsctl.exe", fs, [decInv]⟩
    else
      let inv : Invocation := ⟨cmd, some (rustTrimEnd passphrase)⟩
      if ¬ env.stdinWriteOk then
        ⟨.error "failed to send passphrase to cppcryptfsctl.exe", fs, [decInv, inv]⟩
      else if ¬ env.status.success then
        ⟨.error ("cppcryptfsctl.exe failed: " ++ rustTrim (lossyString env.stderr)),
          fs, [decInv, inv]⟩
      else
        let srcConf := objectsDir ++ ["gocryptfs.conf"]
        let dstConf := repoDir ++ ["gocryptfs.conf"]
        let fs1 := Fs.addFile fs srcConf 0o644
        match Fs.rename fs1 srcConf dstConf with
        | .error e => ⟨.error ("failed to move gocryptfs.conf: " ++ e), fs1, [decInv, inv]⟩
        | .ok fs2 =>
          match set_secret_mode fs2 dstConf with
          | .error e => ⟨.error e, fs2, [decInv, inv]⟩
          | .ok fs3 => ⟨.ok (), fs3, [decInv, inv]⟩

/-- The cppcryptfs.exe mount command of windows::mount_repository. -/
def win_mount_cmd (cipherDir : List String) (mountPointStr passphraseTrimmed : String)
    (repoDir : List String) : Cmd :=
  ⟨"cppcryptfs.exe",
    ["--mount=" ++ showWinPath cipherDir, "--drive=" ++ mountPointStr,
      "--password=" ++ passphraseTrimmed,
      "--config=" ++ showWinPath (repoDir ++ ["gocryptfs.conf"]), "-t", "-x"]⟩

/-- Transcribes windows::mount_repository: decrypt the passphrase
eagerly, then one cppcryptfs.exe invocation through the process runner
carrying the trailing-whitespace-trimmed passphrase as a command-line
value; caller-supplied mount options are ignored with a printed note
and do not reach the command. -/
def windows_mount_repository (oracle : Cmd → CmdResult) (fs : Fs)
    (cipherDir passphraseFile : List String) (mountPointStr : String)
    (_options : Option String) (repoDir : List String) : WinOut Unit :=
  let decInv : Invocation := ⟨decryptCmd (showWinPath passphraseFile), none⟩
  match decrypt_passphrase oracle (showWinPath passphraseFile) with
  | .error e => ⟨.error e, fs, [decInv]⟩
  | .ok passphrase =>
    let cmd := win_mount_cmd cipherDir mountPointStr (rustTrimEnd passphrase) repoDir
    match run_with_output cmd (oracle cmd) with
    | .error e => ⟨.error ("cppcryptfs.exe mount failed: " ++ e), fs, [decInv, ⟨cmd, none⟩]⟩
    | .ok _ => ⟨.ok (), fs, [decInv, ⟨cmd, none⟩]⟩

/-- A concrete pipeline environment in which everything succeeds. -/
def pipeOkEnv : PipeEnv :=
  ⟨true, true, ⟨true, "exit status: 0"⟩, ⟨true, "exit status: 0"⟩, []⟩

/-- A concrete oracle whose every command fails to launch. -/
def spawnFailOracle : Cmd → CmdResult :=
  fun _ => CmdResult.spawnFailed "No such file or directory (os error 2)"

lemma sContains_parts (hay pre mid suf : String)
    (h : hay.data = pre.data ++ mid.data ++ suf.data) : sContains hay mid :=
  ⟨pre.data, suf.data, h.symm⟩

lemma sContains_parts2 (hay pre mid : String)
    (h : hay.data = pre.data ++ mid.data) : sContains hay mid :=
  ⟨pre.data, [], by simp [h]⟩

lemma pathPrefixes_append_singleton (xs : List String) (y : String) :
    pathPrefixes (xs ++ [y]) = pathPrefixes xs ++ [xs ++ [y]] := by
  induction xs with
  | nil => rfl
  | cons c rest ih => simp [pathPrefixes, ih]

lemma length_le_of_mem_pathPrefixes {q p : List String} (h : q ∈ pathPrefixes p) :
    q.length ≤ p.length := by
  induction p generalizing q with
  | nil => simp [pathPrefixes] at h
  | cons c rest ih =>
    simp only [pathPrefixes, List.mem_cons, List.mem_map] at h
    rcases h with rfl | ⟨q', hq', rfl⟩
    · simp
    · simpa using Nat.succ_le_succ (ih hq')

lemma self_mem_pathPrefixes {p : List String} (h : p ≠ []) : p ∈ pathPrefixes p := by
  induction p with
  | nil => exact absurd rfl h
  | cons c rest ih =>
    by_cases hres : rest = []
    · subst hres
      simp [pathPrefixes]
    · have hmem := ih hres
      simp only [pathPrefixes, List.mem_cons, List.mem_map]
      exact Or.inr ⟨rest, hmem, rfl⟩

lemma ne_append_singleton (xs : List String) (y : String) : xs ≠ xs ++ [y] := by
  intro h
  have := congrArg List.length h
  simp at this

/-- C3: mount-point normalization returns an absolute path unchanged;
on the Windows code path it returns a two-character drive-letter token
unchanged; otherwise it returns the current working directory joined
with the input.  The function is pure, so it performs no I/O and no
validation of existence. -/
theorem normalize_mount_point_spec (plat : Platform) (cwd input : String) :
    (isAbsolutePath plat input = true → normalize_mount_point plat cwd input = input) ∧
    (plat = Platform.windows → is_windows_drive_letter_check input = true →
      normalize_mount_point plat cwd input = input) ∧
    (isAbsolutePath plat input = false → is_windows_drive_letter plat input = false →
      normalize_mount_point plat cwd input = joinPath plat cwd input) := by
  cases plat <;>
    refine ⟨fun h1 => ?_, fun hw hd => ?_, fun h1 h2 => ?_⟩ <;>
    simp_all [normalize_mount_point, is_windows_drive_letter]

/-- Witness for C3 at concrete inputs. -/
theorem normalize_mount_point_spec_witness :
    normalize_mount_point Platform.unix "/home/u" "data" = "/home/u/data" :=
  ((normalize_mount_point_spec Platform.unix "/home/u" "data").2.2 (by decide)
    (by decide)).trans (by decide)

/-- C10: on the non-Windows build a drive-letter token such as E: gets
no special treatment: the compiled-in drive-letter check is constantly
false, the token is not an absolute path, and normalization returns the
current working directory joined with the token. -/
theorem drive_letter_relative_on_unix (cwd s : String)
    (h : is_windows_drive_letter_check s = true) :
    is_windows_drive_letter Platform.unix s = false ∧
    isAbsolutePath Platform.unix s = false ∧
    normalize_mount_point Platform.unix cwd s = joinPath Platform.unix cwd s := by
  have habs : isAbsolutePath Platform.unix s = false := by
    unfold is_windows_drive_letter_check at h
    unfold isAbsolutePath
    cases hd : s.data with
    | nil => simp [hd] at h
    | cons c t =>
      cases t with
      | nil => simp [hd] at h
      | cons d t2 =>
        cases t2 with
        | cons e t3 => simp [hd] at h
        | nil =>
          simp only [hd] at h ⊢
          simp only [Bool.and_eq_true] at h
          have hc : c ≠ '/' := by
            intro he
            subst he
            exact absurd h.1 (by decide)
          simp [hc]
  refine ⟨rfl, habs, ?_⟩
  exact (normalize_mount_point_spec Platform.unix cwd s).2.2 habs rfl

/-- Witness for C10 at the token E:. -/
theorem drive_letter_relative_on_unix_witness :
    normalize_mount_point Platform.unix "/home/u" "E:" = "/home/u/E:" :=
  ((drive_letter_relative_on_unix "/home/u" "E:" (by decide)).2.2).trans (by decide)

/-- C2 counterexample: when the external unmount binary cannot be
launched at all, umount returns an error even though no command exited
non-zero; so a non-zero exit of the invoked command is not the only
failure mode. -/
theorem umount_error_without_nonzero_exit :
    isErrorResult (umount Platform.unix spawnFailOracle "/mnt/data").1 = true ∧
    spawnFailOracle (umount_cmd Platform.unix "/mnt/data") =
      CmdResult.spawnFailed "No such file or directory (os error 2)" := by
  decide

/-- C2 amended: umount attempts exactly one external command, and it
returns an error exactly when that attempt failed, that is, when the
command could not be launched or exited non-zero; there is no retry and
no fallback. -/
theorem umount_failure_modes (plat : Platform) (oracle : Cmd → CmdResult) (mountStr : String) :
    (umount plat oracle mountStr).2 = [umount_cmd plat mountStr] ∧
    isErrorResult (umount plat oracle mountStr).1 =
      CmdResult.failed (oracle (umount_cmd plat mountStr)) := by
  unfold umount
  cases h : oracle (umount_cmd plat mountStr) with
  | spawnFailed msg => simp [run_with_output, isErrorResult, CmdResult.failed, h]
  | completed out =>
    cases hs : out.status.success <;>
      simp [run_with_output, isErrorResult, CmdResult.failed, h, hs]

/-- C7: create with an empty or whitespace-only recipient fails with
the invalid-input error, leaves the filesystem untouched and attempts
no external command. -/
theorem create_empty_recipient_rejected (cwd : List String) (pipe : PipeEnv)
    (oracle : Cmd → CmdResult) (fs : Fs) (user : String) (repo : RPath)
    (h : rustTrim user = "") :
    create cwd pipe oracle fs user repo =
      ⟨.error "GPG user/email is required (-u/--user)", fs, []⟩ := by
  unfold create create_layout
  simp [h]

/-- Witness for C7 at a whitespace-only recipient. -/
theorem create_empty_recipient_rejected_witness :
    create [] pipeOkEnv spawnFailOracle fsEmpty "   " ⟨true, ["repo"]⟩ =
      ⟨.error "GPG user/email is required (-u/--user)", fsEmpty, []⟩ :=
  create_empty_recipient_rejected [] pipeOkEnv spawnFailOracle fsEmpty "   " ⟨true, ["repo"]⟩
    (by decide)

/-- A concrete pipeline environment in which both gpg children exit
non-zero, the encryptor with stderr boom. -/
def pipeBothFail : PipeEnv :=
  ⟨true, true, ⟨false, "exit status: 2"⟩, ⟨false, "exit status: 1"⟩,
    [0x62, 0x6F, 0x6F, 0x6D]⟩

/-- C1 counterexample: when both pipeline stages exit non-zero the
error carries the generator status, not the encryptor stderr, so the
encryptor diagnostic is not preferred. -/
theorem pipeline_generator_diagnostic_preferred :
    pipeBothFail.encryptStatus.success = false ∧
    rustTrim (lossyString pipeBothFail.encryptStderr) = "boom" ∧
    (generate_encrypted_passphrase pipeBothFail "user" fsEmpty
        ["r", "passphrase.gpg"]).result =
      .error "gpg --gen-random failed with status exit status: 2" ∧
    ¬ sContains "gpg --gen-random failed with status exit status: 2" "boom" := by
  decide

/-- C1 amended: once both children are spawned, both are awaited (both
commands appear in the trace and both statuses decide the outcome); the
pipeline fails exactly when either stage exits non-zero; the diagnostic
is the generator status whenever the generator failed, and the
encryptor stderr exactly when only the encryptor failed. -/
theorem generate_encrypted_passphrase_spec (pipe : PipeEnv) (user : String) (fs : Fs)
    (pf : List String) (hr : pipe.randomSpawnOk = true) (he : pipe.encryptSpawnOk = true) :
    (generate_encrypted_passphrase pipe user fs pf).trace = [randomCmd, encryptCmd user pf] ∧
    (isErrorResult (generate_encrypted_passphrase pipe user fs pf).result = true ↔
      (pipe.randomStatus.success = false ∨ pipe.encryptStatus.success = false)) ∧
    (pipe.randomStatus.success = false →
      (generate_encrypted_passphrase pipe user fs pf).result =
        .error ("gpg --gen-random failed with status " ++ pipe.randomStatus.display)) ∧
    (pipe.randomStatus.success = true → pipe.encryptStatus.success = false →
      (generate_encrypted_passphrase pipe user fs pf).result =
        .error ("gpg failed to encrypt passphrase: " ++
          rustTrim (lossyString pipe.encryptStderr))) := by
  unfold generate_encrypted_passphrase
  cases hrs : pipe.randomStatus.success <;> cases hes : pipe.encryptStatus.success <;>
    simp [hr, he, hrs, hes, isErrorResult]

/-- Witness for C1 amended at a concrete failing generator. -/
theorem generate_encrypted_passphrase_spec_witness :
    (generate_encrypted_passphrase pipeBothFail "user" fsEmpty ["p"]).result =
      .error "gpg --gen-random failed with status exit status: 2" :=
  ((generate_encrypted_passphrase_spec pipeBothFail "user" fsEmpty ["p"] (by decide)
    (by decide)).2.2.1 (by decide)).trans (by decide)

/-- C4: for an executed (completed) external command the process
runner succeeds with the captured output exactly when the exit status
is zero; on non-zero exit the error message carries the formatted
command line and, as diagnostic, the trimmed captured stderr when
non-empty, else the trimmed captured stdout when non-empty, else the
exit status when both streams are empty. -/
theorem run_with_output_spec (cmd : Cmd) (out : Output) :
    ((run_with_output cmd (.completed out) = .ok out) ↔ out.status.success = true) ∧
    (∀ m, run_with_output cmd (.completed out) = .error m →
      sContains m (format_command cmd) ∧
      (rustTrim (lossyString out.stderr) ≠ "" →
        sContains m (rustTrim (lossyString out.stderr))) ∧
      (rustTrim (lossyString out.stderr) = "" → rustTrim (lossyString out.stdout) ≠ "" →
        sContains m (rustTrim (lossyString out.stdout))) ∧
      (rustTrim (lossyString out.stderr) = "" → rustTrim (lossyString out.stdout) = "" →
        sContains m out.status.display)) := by
  cases hs : out.status.success with
  | true =>
    constructor
    · simp [run_with_output, hs]
    · intro m hm
      simp [run_with_output, hs] at hm
  | false =>
    constructor
    · simp [run_with_output, hs]
    · intro m hm
      by_cases he : rustTrim (lossyString out.stderr) = "" <;>
        by_cases ho : rustTrim (lossyString out.stdout) = ""
      · simp only [run_with_output, hs, Bool.false_eq_true, if_false, he, ho,
          ne_eq, not_true_eq_false, if_neg, ite_false, List.nil_append,
          if_pos, and_self, ite_true, joinWith, Except.error.injEq] at hm
        subst hm
        refine ⟨?_, by simp [he], by simp [ho], fun _ _ => ?_⟩
        · exact sContains_parts _ "`" (format_command cmd)
            ("` failed: " ++ ("exit status: " ++ out.status.display))
            (by simp [String.data_append])
        · exact sContains_parts2 _ ("`" ++ format_command cmd ++ "` failed: " ++ "exit status: ")
            out.status.display (by simp [String.data_append])
      · simp only [run_with_output, hs, Bool.false_eq_true, if_false, he, ho,
          ne_eq, not_true_eq_false, if_neg, ite_false, not_false_eq_true, ite_true,
          List.nil_append, List.cons_ne_self, joinWith, Except.error.injEq] at hm
        subst hm
        refine ⟨?_, by simp [he], fun _ _ => ?_, fun _ h2 => absurd h2 ho⟩
        · exact sContains_parts _ "`" (format_command cmd)
            ("` failed: " ++ ("stdout: " ++ rustTrim (lossyString out.stdout)))
            (by simp [String.data_append])
        · exact sContains_parts2 _ ("`" ++ format_command cmd ++ "` failed: " ++ "stdout: ")
            (rustTrim (lossyString out.stdout)) (by simp [String.data_append])
      · simp only [run_with_output, hs, Bool.false_eq_true, if_false, he, ho,
          ne_eq, not_false_eq_true, ite_true, not_true_eq_false, ite_false,
          List.append_nil, joinWith, Except.error.injEq] at hm
        subst hm
        refine ⟨?_, fun _ => ?_, fun h1 => absurd h1 he, fun h1 => absurd h1 he⟩
        · exact sContains_parts _ "`" (format_command cmd)
            ("` failed: " ++ ("stderr: " ++ rustTrim (lossyString out.stderr)))
            (by simp [String.data_append])
        · exact sContains_parts2 _ ("`" ++ format_command cmd ++ "` failed: " ++ "stderr: ")
            (rustTrim (lossyString out.stderr)) (by simp [String.data_append])
      · simp only [run_with_output, hs, Bool.false_eq_true, if_false, he, ho,
          ne_eq, not_false_eq_true, ite_true, ite_false, joinWith, Except.error.injEq] at hm
        subst hm
        refine ⟨?_, fun _ => ?_, fun h1 => absurd h1 he, fun h1 => absurd h1 he⟩
        · exact sContains_parts _ "`" (format_command cmd)
            ("` failed: " ++ (("stderr: " ++ rustTrim (lossyString out.stderr)) ++ "\n" ++
              ("stdout: " ++ rustTrim (lossyString out.stdout))))
            (by simp [String.data_append])
        · exact sContains_parts _ ("`" ++ format_command cmd ++ "` failed: " ++ "stderr: ")
            (rustTrim (lossyString out.stderr))
            ("\n" ++ ("stdout: " ++ rustTrim (lossyString out.stdout)))
            (by simp [String.data_append])

/-- Witness for C4 at a concrete failing command with stderr oops. -/
theorem run_with_output_spec_witness :
    sContains "`gpg x` failed: stderr: oops" "oops" :=
  ((run_with_output_spec ⟨"gpg", ["x"]⟩
      ⟨⟨false, "exit status: 1"⟩, [], [0x6F, 0x6F, 0x70, 0x73]⟩).2
    "`gpg x` failed: stderr: oops" (by decide)).2.1 (by decide)

/-- C5: mount against a repository whose passphrase.gpg is not a file
or whose objects/ is not a directory fails with the invalid-repository
error before any external command is attempted. -/
theorem mount_invalid_layout_fails_without_commands (cwd : List String)
    (oracle : Cmd → CmdResult) (fs : Fs) (repo : RPath) (mountPoint : List String)
    (options : Option String)
    (h : Fs.isFile fs (absolute_path cwd repo ++ ["passphrase.gpg"]) = false ∨
         Fs.isDir fs (absolute_path cwd repo ++ ["objects"]) = false) :
    (mount cwd oracle fs repo mountPoint options).result =
      .error ("repository layout is invalid under '" ++ showPath (absolute_path cwd repo) ++
        "': expected passphrase.gpg and objects/") ∧
    (mount cwd oracle fs repo mountPoint options).trace = [] := by
  unfold mount
  rcases h with h | h <;> simp [h]

/-- Witness for C5 at an empty filesystem. -/
theorem mount_invalid_layout_fails_without_commands_witness :
    (mount [] spawnFailOracle fsEmpty ⟨true, ["repo"]⟩ ["mnt"] none).trace = [] :=
  (mount_invalid_layout_fails_without_commands [] spawnFailOracle fsEmpty ⟨true, ["repo"]⟩
    ["mnt"] none (Or.inl (by decide))).2

/-- C8: when the repository layout check fails, mount leaves the
filesystem entirely unchanged; in particular a missing mount point
directory is not created, because validation precedes mount-point
creation. -/
theorem mount_invalid_layout_preserves_fs (cwd : List String)
    (oracle : Cmd → CmdResult) (fs : Fs) (repo : RPath) (mountPoint : List String)
    (options : Option String)
    (h : Fs.isFile fs (absolute_path cwd repo ++ ["passphrase.gpg"]) = false ∨
         Fs.isDir fs (absolute_path cwd repo ++ ["objects"]) = false) :
    (mount cwd oracle fs repo mountPoint options).fs = fs ∧
    (Fs.existsPath fs mountPoint = false →
      Fs.existsPath (mount cwd oracle fs repo mountPoint options).fs mountPoint = false) := by
  have hfs : (mount cwd oracle fs repo mountPoint options).fs = fs := by
    unfold mount
    rcases h with h | h <;> simp [h]
  exact ⟨hfs, fun hmp => by rw [hfs]; exact hmp⟩

/-- Witness for C8 at an empty filesystem and a missing mount point. -/
theorem mount_invalid_layout_preserves_fs_witness :
    Fs.existsPath (mount ["home"] spawnFailOracle fsEmpty ⟨false, ["r2"]⟩ ["mnt2"] none).fs
      ["mnt2"] = false :=
  (mount_invalid_layout_preserves_fs ["home"] spawnFailOracle fsEmpty ⟨false, ["r2"]⟩
    ["mnt2"] none (Or.inr (by decide))).2 (by decide)

/-- C9: on the Windows backend, when the gpg --decrypt command
completes successfully, both init and mount fail with an error if the
decrypted bytes are not valid UTF-8; when the bytes are valid UTF-8,
init pipes exactly the trailing-whitespace-trimmed passphrase to the
driver-control binary via stdin and mount passes exactly the same
trimmed string in its --password argument. -/
theorem windows_passphrase_utf8_and_trim (oracle : Cmd → CmdResult) (env : WinInitEnv)
    (fs fs2 : Fs) (repoDir objectsDir passphraseFile cipherDir : List String)
    (mountPointStr : String) (options : Option String) (out : Output)
    (hdec : oracle (decryptCmd (showWinPath passphraseFile)) = .completed out)
    (hok : out.status.success = true) :
    (utf8DecodeAll out.stdout = none →
      isErrorResult
        (windows_init_repository oracle env fs repoDir objectsDir passphraseFile).result =
          true ∧
      isErrorResult
        (windows_mount_repository oracle fs2 cipherDir passphraseFile mountPointStr options
          repoDir).result = true) ∧
    (∀ cps, utf8DecodeAll out.stdout = some cps → env.spawnOk = true →
      (windows_init_repository oracle env fs repoDir objectsDir passphraseFile).invocations =
        [⟨decryptCmd (showWinPath passphraseFile), none⟩,
          ⟨win_init_cmd objectsDir (volume_name repoDir),
            some (rustTrimEnd (cpString cps))⟩] ∧
      (windows_mount_repository oracle fs2 cipherDir passphraseFile mountPointStr options
          repoDir).invocations =
        [⟨decryptCmd (showWinPath passphraseFile), none⟩,
          ⟨win_mount_cmd cipherDir mountPointStr (rustTrimEnd (cpString cps)) repoDir,
            none⟩]) := by
  have hrun : run_with_output (decryptCmd (showWinPath passphraseFile))
      (oracle (decryptCmd (showWinPath passphraseFile))) = .ok out := by
    rw [hdec]
    simp [run_with_output, hok]
  constructor
  · intro hbad
    have hdp : decrypt_passphrase oracle (showWinPath passphraseFile) =
        .error "passphrase is not valid UTF-8" := by
      unfold decrypt_passphrase
      rw [hrun]
      simp [stringFromUtf8, hbad]
    constructor
    · unfold windows_init_repository
      rw [hdp]
      simp [isErrorResult]
    · unfold windows_mount_repository
      rw [hdp]
      simp [isErrorResult]
  · intro cps hcps hspawn
    have hdp : decrypt_passphrase oracle (showWinPath passphraseFile) =
        .ok (cpString cps) := by
      unfold decrypt_passphrase
      rw [hrun]
      simp [stringFromUtf8, hcps]
    constructor
    · unfold windows_init_repository
      rw [hdp]
      split
      · rename_i e heq
        exact absurd heq (by simp)
      · rename_i p heq
        injection heq with hp
        subst hp
        by_cases hw : env.stdinWriteOk <;> by_cases hst : env.status.success <;>
          simp [hspawn, hw, hst, Fs.rename, Fs.addFile, set_secret_mode, Fs.setMode]
    · unfold windows_mount_repository
      rw [hdp]
      split
      · rename_i e heq
        exact absurd heq (by simp)
      · rename_i p heq
        injection heq with hp
        subst hp
        dsimp only
        split <;> simp

/-- A concrete oracle whose every command completes successfully with
the byte output of pw followed by a newline. -/
def winDecryptOracle : Cmd → CmdResult :=
  fun _ => CmdResult.completed ⟨⟨true, "exit status: 0"⟩, [0x70, 0x77, 0x0A], []⟩

/-- A concrete Windows init child environment in which everything
succeeds. -/
def winInitOkEnv : WinInitEnv := ⟨true, true, ⟨true, "exit status: 0"⟩, []⟩

/-- Witness for C9: the trimmed passphrase pw reaches the init child
stdin. -/
theorem windows_passphrase_utf8_and_trim_witness :
    (windows_init_repository winDecryptOracle winInitOkEnv fsEmpty ["C:", "repo"]
        ["C:", "repo", "objects"] ["C:", "repo", "passphrase.gpg"]).invocations =
      [⟨decryptCmd (showWinPath ["C:", "repo", "passphrase.gpg"]), none⟩,
        ⟨win_init_cmd ["C:", "repo", "objects"] (volume_name ["C:", "repo"]),
          some (rustTrimEnd (cpString [0x70, 0x77, 0x0A]))⟩] :=
  ((windows_passphrase_utf8_and_trim winDecryptOracle winInitOkEnv fsEmpty fsEmpty
      ["C:", "repo"] ["C:", "repo", "objects"] ["C:", "repo", "passphrase.gpg"]
      ["C:", "repo", "objects"] "E:" none
      ⟨⟨true, "exit status: 0"⟩, [0x70, 0x77, 0x0A], []⟩ (by decide) (by decide)).2
    [0x70, 0x77, 0x0A] (by decide) (by decide)).1

lemma append_singleton_inj {xs : List String} {a b : String} :
    xs ++ [a] = xs ++ [b] ↔ a = b := by
  simp

lemma linux_init_repository_trace (oracle : Cmd → CmdResult) (fs : Fs)
    (repoDir objectsDir passphraseFile : List String) :
    (linux_init_repository oracle fs repoDir objectsDir passphraseFile).trace =
      [linux_init_cmd repoDir objectsDir passphraseFile] := by
  simp only [linux_init_repository]
  split
  · rfl
  · split <;> rfl

lemma set_dir_mode_eq {fs : Fs} {p : List String} {k : EntryKind} {m : Nat}
    (h : fs p = some (k, m)) :
    set_dir_mode fs p = .ok (fun q => if q = p then some (k, 0o700) else fs q) := by
  unfold set_dir_mode Fs.setMode
  rw [h]

lemma set_secret_mode_eq {fs : Fs} {p : List String} {k : EntryKind} {m : Nat}
    (h : fs p = some (k, m)) :
    set_secret_mode fs p = .ok (fun q => if q = p then some (k, 0o600) else fs q) := by
  unfold set_secret_mode Fs.setMode
  rw [h]

/-- C6: for a non-empty recipient, a non-existing creatable target
directory and a succeeding passphrase pipeline, the layout phase of
create succeeds and establishes, before the backend init delegation,
the target directory with owner-only mode 0700 containing exactly
objects/ (mode 0700) and passphrase.gpg (mode 0600); create then
delegates to the platform backend by attempting the gocryptfs -init
command after the layout-phase pipeline commands. -/
theorem create_layout_establishes_repository (cwd : List String) (pipe : PipeEnv)
    (fs : Fs) (user : String) (repo : RPath)
    (hUser : ¬ rustTrim user = "")
    (hNonRoot : absolute_path cwd repo ≠ [])
    (hNotExists : fs (absolute_path cwd repo) = none)
    (hEmptyBelow : ∀ name : String, fs (absolute_path cwd repo ++ [name]) = none)
    (hAncestors : ∀ q ∈ pathPrefixes (absolute_path cwd repo ++ ["objects"]),
      Fs.isFile fs q = false)
    (hr : pipe.randomSpawnOk = true) (hes : pipe.encryptSpawnOk = true)
    (hrs : pipe.randomStatus.success = true) (hens : pipe.encryptStatus.success = true) :
    (create_layout cwd pipe fs user repo).result = .ok (absolute_path cwd repo) ∧
    (create_layout cwd pipe fs user repo).fs (absolute_path cwd repo) =
      some (EntryKind.dir, 0o700) ∧
    (create_layout cwd pipe fs user repo).fs (absolute_path cwd repo ++ ["objects"]) =
      some (EntryKind.dir, 0o700) ∧
    (create_layout cwd pipe fs user repo).fs (absolute_path cwd repo ++ ["passphrase.gpg"]) =
      some (EntryKind.file, 0o600) ∧
    (∀ name : String, name ≠ "objects" → name ≠ "passphrase.gpg" →
      (create_layout cwd pipe fs user repo).fs (absolute_path cwd repo ++ [name]) = none) ∧
    (∀ oracle : Cmd → CmdResult,
      (create cwd pipe oracle fs user repo).trace =
        (create_layout cwd pipe fs user repo).trace ++
          [linux_init_cmd (absolute_path cwd repo) (absolute_path cwd repo ++ ["objects"])
            (absolute_path cwd repo ++ ["passphrase.gpg"])]) := by
  have hne : Fs.existsPath fs (absolute_path cwd repo) = false := by
    simp [Fs.existsPath, hNotExists]
  have hmkCond :
      ((pathPrefixes (absolute_path cwd repo ++ ["objects"])).any
        (fun q => Fs.isFile fs q)) = false := by
    simp only [List.any_eq_false]
    intro q hq
    simp [hAncestors q hq]
  have hmemRd : absolute_path cwd repo ∈
      pathPrefixes (absolute_path cwd repo ++ ["objects"]) := by
    rw [pathPrefixes_append_singleton]
    exact List.mem_append_left _ (self_mem_pathPrefixes hNonRoot)
  have hmemOd : absolute_path cwd repo ++ ["objects"] ∈
      pathPrefixes (absolute_path cwd repo ++ ["objects"]) := by
    rw [pathPrefixes_append_singleton]
    exact List.mem_append_right _ (by simp)
  have hnotmem : ∀ name : String, name ≠ "objects" →
      absolute_path cwd repo ++ [name] ∉
        pathPrefixes (absolute_path cwd repo ++ ["objects"]) := by
    intro name hname hmem
    rw [pathPrefixes_append_singleton] at hmem
    rcases List.mem_append.mp hmem with hmem | hmem
    · have hlen := length_le_of_mem_pathPrefixes hmem
      simp at hlen
    · have heq : absolute_path cwd repo ++ [name] = absolute_path cwd repo ++ ["objects"] := by
        simpa using hmem
      exact hname (append_singleton_inj.mp heq)
  obtain ⟨f1, hmk, hf1⟩ :
      ∃ f1, Fs.mkdirAll fs (absolute_path cwd repo ++ ["objects"]) = .ok f1 ∧
        ∀ q, f1 q =
          if q ∈ pathPrefixes (absolute_path cwd repo ++ ["objects"]) ∧ fs q = none then
            some (EntryKind.dir, 0o755)
          else fs q := by
    refine ⟨_, ?_, fun q => rfl⟩
    unfold Fs.mkdirAll
    rw [hmkCond]
    simp
  have hf1rd : f1 (absolute_path cwd repo) = some (EntryKind.dir, 0o755) := by
    rw [hf1]
    simp [hmemRd, hNotExists]
  obtain ⟨f2, hsd1, hf2⟩ :
      ∃ f2, set_dir_mode f1 (absolute_path cwd repo) = .ok f2 ∧
        ∀ q, f2 q =
          if q = absolute_path cwd repo then some (EntryKind.dir, 0o700) else f1 q :=
    ⟨_, set_dir_mode_eq hf1rd, fun q => rfl⟩
  have hf2od : f2 (absolute_path cwd repo ++ ["objects"]) = some (EntryKind.dir, 0o755) := by
    rw [hf2, if_neg (ne_append_singleton _ _).symm, hf1]
    simp [hmemOd, hEmptyBelow "objects"]
  obtain ⟨f3, hsd2, hf3⟩ :
      ∃ f3, set_dir_mode f2 (absolute_path cwd repo ++ ["objects"]) = .ok f3 ∧
        ∀ q, f3 q =
          if q = absolute_path cwd repo ++ ["objects"] then some (EntryKind.dir, 0o700)
          else f2 q :=
    ⟨_, set_dir_mode_eq hf2od, fun q => rfl⟩
  have hgen : generate_encrypted_passphrase pipe user f3
      (absolute_path cwd repo ++ ["passphrase.gpg"]) =
      ⟨.ok (), Fs.addFile f3 (absolute_path cwd repo ++ ["passphrase.gpg"]) 0o644,
        [randomCmd, encryptCmd user (absolute_path cwd repo ++ ["passphrase.gpg"])]⟩ := by
    unfold generate_encrypted_passphrase
    simp [hr, hes, hrs, hens]
  have hf4 : ∀ q, Fs.addFile f3 (absolute_path cwd repo ++ ["passphrase.gpg"]) 0o644 q =
      if q = absolute_path cwd repo ++ ["passphrase.gpg"] then some (EntryKind.file, 0o644)
      else f3 q := fun q => rfl
  have hf4pf : Fs.addFile f3 (absolute_path cwd repo ++ ["passphrase.gpg"]) 0o644
      (absolute_path cwd repo ++ ["passphrase.gpg"]) = some (EntryKind.file, 0o644) := by
    rw [hf4]
    simp
  obtain ⟨f5, hss, hf5⟩ :
      ∃ f5, set_secret_mode
          (Fs.addFile f3 (absolute_path cwd repo ++ ["passphrase.gpg"]) 0o644)
          (absolute_path cwd repo ++ ["passphrase.gpg"]) = .ok f5 ∧
        ∀ q, f5 q =
          if q = absolute_path cwd repo ++ ["passphrase.gpg"] then some (EntryKind.file, 0o600)
          else Fs.addFile f3 (absolute_path cwd repo ++ ["passphrase.gpg"]) 0o644 q :=
    ⟨_, set_secret_mode_eq hf4pf, fun q => rfl⟩
  have hmain : create_layout cwd pipe fs user repo =
      ⟨.ok (absolute_path cwd repo), f5,
        [randomCmd, encryptCmd user (absolute_path cwd repo ++ ["passphrase.gpg"])]⟩ := by
    simp only [create_layout, hUser, hne, Bool.false_eq_true, if_false, ite_false, hmk,
      hsd1, hsd2, hgen, hss]
  have hpfod : (absolute_path cwd repo ++ ["objects"] : List String) ≠
      absolute_path cwd repo ++ ["passphrase.gpg"] := by
    rw [Ne, append_singleton_inj]
    decide
  refine ⟨?_, ?_, ?_, ?_, ?_, ?_⟩
  · rw [hmain]
  · rw [hmain]
    show f5 (absolute_path cwd repo) = some (EntryKind.dir, 0o700)
    rw [hf5, if_neg (ne_append_singleton _ _), hf4, if_neg (ne_append_singleton _ _),
      hf3, if_neg (ne_append_singleton _ _), hf2, if_pos rfl]
  · rw [hmain]
    show f5 (absolute_path cwd repo ++ ["objects"]) = some (EntryKind.dir, 0o700)
    rw [hf5, if_neg hpfod, hf4, if_neg hpfod, hf3, if_pos rfl]
  · rw [hmain]
    show f5 (absolute_path cwd repo ++ ["passphrase.gpg"]) = some (EntryKind.file, 0o600)
    rw [hf5, if_pos rfl]
  · intro name hname1 hname2
    rw [hmain]
    show f5 (absolute_path cwd repo ++ [name]) = none
    have hnpf : (absolute_path cwd repo ++ [name] : List String) ≠
        absolute_path cwd repo ++ ["passphrase.gpg"] := by
      rw [Ne, append_singleton_inj]
      exact hname2
    have hnod : (absolute_path cwd repo ++ [name] : List String) ≠
        absolute_path cwd repo ++ ["objects"] := by
      rw [Ne, append_singleton_inj]
      exact hname1
    have hnrd : (absolute_path cwd repo ++ [name] : List String) ≠ absolute_path cwd repo :=
      (ne_append_singleton _ _).symm
    rw [hf5, if_neg hnpf, hf4, if_neg hnpf, hf3, if_neg hnod, hf2, if_neg hnrd, hf1,
      if_neg (by simp [hnotmem name hname1]), hEmptyBelow name]
  · intro oracle
    unfold create
    rw [hmain]
    dsimp only
    rw [linux_init_repository_trace]

/-- Witness for C6 at a concrete empty filesystem. -/
theorem create_layout_establishes_repository_witness :
    (create_layout ["home"] pipeOkEnv fsEmpty "alice" ⟨false, ["repo"]⟩).result =
      .ok ["home", "repo"] ∧
    (create_layout ["home"] pipeOkEnv fsEmpty "alice" ⟨false, ["repo"]⟩).fs
      ["home", "repo", "objects"] = some (EntryKind.dir, 0o700) := by
  have h := create_layout_establishes_repository ["home"] pipeOkEnv fsEmpty "alice"
    ⟨false, ["repo"]⟩ (by decide) (by decide) rfl (fun _ => rfl) (fun q _ => rfl)
    (by decide) (by decide) (by decide) (by decide)
  exact ⟨h.1, h.2.2.1⟩

end CryptfsCli

